import Mathlib

/-!
Verification of the Advanced-Patch-Generator orchestration core.

Shallow embedding of the chunked-delta orchestration subsystem of the
Advanced-Patch-Generator repository, together with proofs and refutations of
the specification's testable properties.

Sources embedded here:
* `src/utils/largeFileUtils.ts` — `LargeFileUtils.createChunks` (the chunk
  planner loop);
* `src/utils/largeFileUtils.js` — `LargeFileUtils.createFileChunks` (byte-level
  chunking of a file's contents);
* `src/utils/commandUtils.js` — `CommandUtils.spawnCommand` (exit-code
  classification in the `close` handler, and the timeout handler);
* `src/lib/AdvancedPatchGenerator.js` — `combinePatchChunks`,
  `createPatchWithChunks`, `createPatch`, `applyPatch`, `verifyPatch`,
  `createBatchPatches`, `checkXdelta`.

JavaScript numbers that can go negative (the planner's `start`, `end` and the
chunk size) are modelled as `Int`; byte values and counts as `Nat`.  Byte
sequences (file contents, patch containers) are `List Nat`.  Loops whose
termination depends on the inputs are given an explicit fuel parameter, so
that non-termination of the source loop is expressible as `= none` for every
fuel.
-/

/-! ## Chunk planner (`LargeFileUtils.createChunks`, largeFileUtils.ts lines 15-43) -/

/-- Chunk descriptor produced by the planner.  The source object is
`{ start, end, size, index }`; `end` is a reserved word in Lean, so the field
is called `endByte` (the name the JavaScript `createFileChunks` descriptors
use for the same quantity). -/
structure ChunkInfo where
  start : Int
  endByte : Int
  size : Int
  index : Nat
deriving Repr, DecidableEq

/-- Fueled form of the `while (start < fileSize)` loop of
`LargeFileUtils.createChunks`.  One fuel unit is one loop iteration:
`end = min(start + chunkSize, fileSize)`, push `{start, end, end - start,
index}`, then `start = end - overlap; index++`.  `none` means the loop has not
finished within the given fuel; the loop body has no exit besides the loop
condition, so `= none` for every fuel is non-termination of the source. -/
def createChunksAux (fileSize chunkSize overlap : Int) : Nat → Int → Nat → Option (List ChunkInfo)
  | 0, _, _ => none
  | fuel + 1, start, index =>
    if start < fileSize then
      let e := min (start + chunkSize) fileSize
      match createChunksAux fileSize chunkSize overlap fuel (e - overlap) (index + 1) with
      | some rest => some (⟨start, e, e - start, index⟩ :: rest)
      | none => none
    else
      some []

/-- `LargeFileUtils.createChunks(filePath, chunkSize, overlap)` with the
file's size passed directly (the source reads it with `fs.stat`).  The loop
starts at `start = 0`, `index = 0`. -/
def createChunks (fileSize chunkSize overlap : Int) (fuel : Nat) : Option (List ChunkInfo) :=
  createChunksAux fileSize chunkSize overlap fuel 0 0

/-- `coversFrom fileSize p l` holds when the descriptors in `l`, in order,
tile the byte range `[p, fileSize)` exactly: each descriptor starts where the
previous one ended (no gaps, no overlaps), is non-empty, and the last one ends
at `fileSize`. -/
def coversFrom (fileSize : Int) : Int → List ChunkInfo → Bool
  | p, [] => p == fileSize
  | p, c :: rest =>
    c.start == p && decide (p < c.endByte) && coversFrom fileSize c.endByte rest

/-- Proposition that the planner loop never terminates on file size 1 with
chunk size 0 and overlap 0 (the concrete instance used to refute the claimed
`InvalidConfiguration` failure). -/
def createChunksLoopsForever : Prop :=
  ∀ fuel, createChunks 1 0 0 fuel = none

/-! ## Byte-level chunking (`LargeFileUtils.createFileChunks`, largeFileUtils.js lines 109-197) -/

/-- Fueled splitting of a byte sequence into pieces of `chunkSize` bytes.
`LargeFileUtils.createFileChunks` streams the file with
`highWaterMark = min(64MB, chunkSize)` and closes the current chunk file as
soon as `bytesRead >= chunkSize`, so each produced chunk holds the next
`chunkSize` bytes of the file and the final chunk holds the remainder.  The
fuel is the length of the list, which suffices whenever `chunkSize > 0`. -/
def createFileChunksAux (chunkSize : Nat) : Nat → List Nat → List (List Nat)
  | 0, _ => []
  | _, [] => []
  | fuel + 1, x :: xs =>
    (x :: xs).take chunkSize :: createFileChunksAux chunkSize fuel ((x :: xs).drop chunkSize)

/-- Byte-level content of the chunk files created by
`LargeFileUtils.createFileChunks`: the empty file yields no chunks (the stream
emits no data events), otherwise consecutive `chunkSize`-byte slices. -/
def createFileChunksBytes (chunkSize : Nat) (content : List Nat) : List (List Nat) :=
  createFileChunksAux chunkSize content.length content

/-! ## Patch container (`combinePatchChunks`, AdvancedPatchGenerator.js lines 565-591) -/

/-- ASCII codes of the decimal rendering of a natural number, as produced by
the JavaScript template literal interpolation of `chunk.index`.  The auxiliary
function peels decimal digits least-significant first with a fuel bound. -/
def asciiDigitsAux : Nat → Nat → List Nat
  | 0, _ => []
  | fuel + 1, n => if n = 0 then [] else (n % 10 + 48) :: asciiDigitsAux fuel (n / 10)

/-- Decimal ASCII rendering of a chunk index (`0` renders as `"0"`). -/
def asciiNat (n : Nat) : List Nat :=
  if n = 0 then [48] else (asciiDigitsAux n n).reverse

/-- Bytes of `Buffer.from(` + "NEW_CHUNK_" + `${index}` + "\n" + `)`, the
marker `combinePatchChunks` writes before a copied-over new chunk. -/
def newChunkMarker (index : Nat) : List Nat :=
  [78, 69, 87, 95, 67, 72, 85, 78, 75, 95] ++ asciiNat index ++ [10]

/-- Bytes of the `REMOVED_CHUNK_` + `${index}` + "\n" marker
`combinePatchChunks` writes for a chunk that exists only in the old file. -/
def removedChunkMarker (index : Nat) : List Nat :=
  [82, 69, 77, 79, 86, 69, 68, 95, 67, 72, 85, 78, 75, 95] ++ asciiNat index ++ [10]

/-- One entry of the `patchChunks` array built by `createPatchWithChunks`
(AdvancedPatchGenerator.js lines 407-482): a delta-encoded sub-patch when both
files have a chunk at this index (`type: patch_chunk`), a raw copy of the new
chunk when only the new file has one (`type: new_chunk`), and a path-less
removal record when only the old file has one (`type: removed_chunk`). -/
inductive PatchChunk where
  | patchChunk (index : Nat) (payload : List Nat)
  | newChunk (index : Nat) (raw : List Nat)
  | removedChunk (index : Nat)
deriving Repr, DecidableEq

/-- The per-index pairing loop of `createPatchWithChunks`: for every index
below `max(oldChunks.length, newChunks.length)` produce the corresponding
`PatchChunk`.  `enc` is the external xdelta encoder invoked on an aligned
chunk pair (`buildCreatePatchCommand` with the old chunk as source and the new
chunk as target), treated as an opaque function of the two chunk contents. -/
def buildChunkList (enc : List Nat → List Nat → List Nat)
    (oldChunks newChunks : List (List Nat)) : List PatchChunk :=
  (List.range (max oldChunks.length newChunks.length)).filterMap fun i =>
    match oldChunks.get? i, newChunks.get? i with
    | some o, some n => some (.patchChunk i (enc o n))
    | none, some n => some (.newChunk i n)
    | some _, none => some (.removedChunk i)
    | none, none => none

/-- Bytes written to `combined_patch.xdelta` by `combinePatchChunks`: each
`patch_chunk` payload is streamed as-is (no separator), each `new_chunk` is
preceded by its `NEW_CHUNK_<i>\n` marker, each `removed_chunk` contributes
only its `REMOVED_CHUNK_<i>\n` marker. -/
def combinePatchChunks : List PatchChunk → List Nat
  | [] => []
  | .patchChunk _ payload :: rest => payload ++ combinePatchChunks rest
  | .newChunk i raw :: rest => newChunkMarker i ++ raw ++ combinePatchChunks rest
  | .removedChunk i :: rest => removedChunkMarker i ++ combinePatchChunks rest

/-- Bytes of the combined patch artifact `createPatchWithChunks` produces for
the given old/new file contents and chunk size — chunk both files, pair the
chunks by index, and concatenate the resulting records.  This is the file the
caller later hands to `applyPatch`, which feeds it, whole, to a single
external decode invocation (`buildApplyPatchCommand`;
AdvancedPatchGenerator.js lines 601-741 contain no container parsing). -/
def createContainer (enc : List Nat → List Nat → List Nat)
    (oldBytes newBytes : List Nat) (chunkSize : Nat) : List Nat :=
  combinePatchChunks
    (buildChunkList enc (createFileChunksBytes chunkSize oldBytes)
      (createFileChunksBytes chunkSize newBytes))

/-- First colliding new file: the single chunk (chunk size 14) whose raw
bytes are the string `ANEW_CHUNK_1\nB`. -/
def newFileA : List Nat :=
  [65, 78, 69, 87, 95, 67, 72, 85, 78, 75, 95, 49, 10, 66]

/-- Second colliding new file: the two one-byte chunks `A`, `B` (chunk
size 1), i.e. the string `AB`. -/
def newFileB : List Nat :=
  [65, 66]

/-! ## Subprocess invocation (`CommandUtils.spawnCommand`, commandUtils.js lines 51-124) -/

/-- Exit-code classification of the `close` handler (commandUtils.js lines
86-112): `code` is `null` when the child was killed by a signal.  The handler
computes `isHelpCommand = args.includes(-h) || args.includes(--help)` and
`isSuccess = code === 0 || (isHelpCommand && code === 1)`. -/
def isHelpCommand (args : List String) : Bool :=
  args.contains "-h" || args.contains "--help"

/-- The `isSuccess` value computed by the `close` handler of
`CommandUtils.spawnCommand`. -/
def isSpawnSuccess (args : List String) (code : Option Int) : Bool :=
  code == some 0 || (isHelpCommand args && code == some 1)

/-- How one `spawnCommand` invocation ends: the child closes with an exit
code (`none` when killed by a signal), or the `timeoutMs` timer fires
first. -/
inductive SpawnOutcome where
  | completes (code : Option Int)
  | timesOut
deriving Repr, DecidableEq

/-- Result of one `spawnCommand` invocation.  `success` is the flag of the
resolved/rejected object; `killedByTimeout` records whether the timeout
handler ran `child.kill(SIGKILL)` (commandUtils.js lines 70-84). -/
structure SpawnResult where
  success : Bool
  killedByTimeout : Bool
deriving Repr, DecidableEq

/-- `CommandUtils.spawnCommand` as a function of how the invocation ends: on
timeout the child is killed with SIGKILL and the promise is rejected with
`success: false`; on close the exit code is classified by `isSuccess`. -/
def spawnCommandResult (args : List String) : SpawnOutcome → SpawnResult
  | .timesOut => ⟨false, true⟩
  | .completes code => ⟨isSpawnSuccess args code, false⟩

/-! ## Chunked patch creation (`createPatchWithChunks`, AdvancedPatchGenerator.js lines 371-557) -/

/-- Outcome of one per-chunk encoder job inside `createPatchWithChunks`:
the spawn resolves with success, the `timeoutMs` timer kills it, or the child
exits non-zero. -/
inductive ChunkJobOutcome where
  | ok
  | timedOut
  | failed
deriving Repr, DecidableEq, BEq

/-- The filesystem facts relevant to the chunked create path: whether the
`temp_chunks` scratch directory (with the chunk and sub-patch files inside
it) exists, and whether a patch artifact exists at the destination path. -/
structure ChunkedCreateFS where
  tempDirExists : Bool
  destinationExists : Bool
deriving Repr, DecidableEq

/-- Result of `createPatchWithChunks`: the `success` flag of the returned
object and the filesystem state at return. -/
structure ChunkedCreateResult where
  success : Bool
  fs : ChunkedCreateFS
deriving Repr, DecidableEq

/-- Effect of `createPatchWithChunks` on the modelled filesystem facts, as a
function of the per-chunk job outcomes.  The path (lines 385-492): create
`temp_chunks` (`fs.ensureDir`), write chunk files into it, run the encoder
jobs; if every job succeeds, write `combined_patch.xdelta` inside the temp
directory, `fs.move` it onto the destination, and `fs.remove` the temp
directory; if any job rejects (timeout or non-zero exit), `Promise.all`
rejects, the `catch` block (lines 542-556) returns `{success: false}` without
touching the destination and without removing the temp directory. -/
def createPatchWithChunksFS (jobs : List ChunkJobOutcome) (init : ChunkedCreateFS) :
    ChunkedCreateResult :=
  if jobs.all (· == .ok) then
    ⟨true, ⟨false, true⟩⟩
  else
    ⟨false, ⟨true, init.destinationExists⟩⟩

/-! ## Top-level createPatch / applyPatch (AdvancedPatchGenerator.js lines 176-305 and 601-741) -/

/-- The external conditions that decide which branch a `createPatch` call
takes: does `FileValidation.validatePatchInputs` pass, does the xdelta probe
succeed, is the pair over `largeFileThreshold`, what do the chunk encoder
jobs do on the chunked path, and does the single encoder spawn succeed on the
standard path. -/
structure CreateEnv where
  validationOk : Bool
  toolAvailable : Bool
  isLargeFile : Bool
  chunkJobs : List ChunkJobOutcome
  standardEncodeOk : Bool
deriving Repr, DecidableEq

/-- The `success` flag `createPatch` returns.  Every thrown error is caught
(lines 284-304) and converted into `{success: false}` — `createPatch` never
throws.  On the large-file branch (line 241) the result object of
`createPatchWithChunks` is captured but its `success` flag is never
inspected: line 250 builds `finalResult` with the literal `success: true`, so
a failed chunked creation is still reported as success. -/
def createPatchSuccessJS (env : CreateEnv) : Bool :=
  if !env.validationOk then false
  else if !env.toolAvailable then false
  else if env.isLargeFile then
    true
  else
    env.standardEncodeOk

/-- One progress observation delivered to the `onProgress` callback and the
`progress` event: the `type` tag, the `percentage` field and, where present,
the `success` field of the emitted object. -/
structure ProgressEvent where
  tag : String
  percentage : Nat
  success : Option Bool
deriving Repr, DecidableEq

/-- The two progress events `checkXdelta` emits when it actually probes
(AdvancedPatchGenerator.js lines 120-158): `percentage: 0` when the probe
starts and `percentage: 100` with the probe's outcome when it ends. -/
def checkingEvents (available : Bool) : List ProgressEvent :=
  [⟨"checking", 0, none⟩, ⟨"checking", 100, some available⟩]

/-- The full sequence of progress events one `createPatch` call emits,
following the source order: 0 and 10 (validation), then on validation failure
the catch block's terminal 100 with `success: false`; otherwise 20, the
tool-probe events, and on probe failure the terminal 100/false; otherwise 30
and 40, then either the chunked branch (which emits no percentages of its
own, after which line 274 emits the terminal 100 with `success: true`
regardless of the chunked result) or the standard branch (50, then on spawn
failure the terminal 100/false, else 80 and the terminal 100/true). -/
def createPatchProgressJS (env : CreateEnv) : List ProgressEvent :=
  [⟨"create", 0, none⟩, ⟨"create", 10, none⟩] ++
  if !env.validationOk then [⟨"create", 100, some false⟩]
  else
    [⟨"create", 20, none⟩] ++ checkingEvents env.toolAvailable ++
    if !env.toolAvailable then [⟨"create", 100, some false⟩]
    else
      [⟨"create", 30, none⟩, ⟨"create", 40, none⟩] ++
      if env.isLargeFile then [⟨"create", 100, some true⟩]
      else
        [⟨"create", 50, none⟩] ++
        if !env.standardEncodeOk then [⟨"create", 100, some false⟩]
        else [⟨"create", 80, none⟩, ⟨"create", 100, some true⟩]

/-- Branch conditions of one `applyPatch` call (lines 601-741). -/
structure ApplyEnv where
  validationOk : Bool
  toolAvailable : Bool
  decodeOk : Bool
deriving Repr, DecidableEq

/-- The `success` flag `applyPatch` returns; like `createPatch`, its catch
block (lines 720-740) converts every thrown error into `{success: false}`. -/
def applyPatchSuccessJS (env : ApplyEnv) : Bool :=
  env.validationOk && env.toolAvailable && env.decodeOk

/-- The sequence of progress events one `applyPatch` call emits: 0, 10, on
validation failure the catch block's 100/false; else 20, the tool-probe
events, on probe failure 100/false; else 30, 50, on decode failure 100/false,
else 80 and the terminal 100/true. -/
def applyPatchProgressJS (env : ApplyEnv) : List ProgressEvent :=
  [⟨"apply", 0, none⟩, ⟨"apply", 10, none⟩] ++
  if !env.validationOk then [⟨"apply", 100, some false⟩]
  else
    [⟨"apply", 20, none⟩] ++ checkingEvents env.toolAvailable ++
    if !env.toolAvailable then [⟨"apply", 100, some false⟩]
    else
      [⟨"apply", 30, none⟩, ⟨"apply", 50, none⟩] ++
      if !env.decodeOk then [⟨"apply", 100, some false⟩]
      else [⟨"apply", 80, none⟩, ⟨"apply", 100, some true⟩]

/-- `nonDecreasing l` is true when the list of percentages never steps
down. -/
def nonDecreasing : List Nat → Bool
  | [] => true
  | [_] => true
  | a :: b :: rest => decide (a ≤ b) && nonDecreasing (b :: rest)

/-! ## Exception behaviour of the top-level operations (error handling) -/

/-- The expected failure modes named by the error-handling contract. -/
inductive FailureMode where
  | missingInput
  | toolUnavailable
  | subprocessTimeout
deriving Repr, DecidableEq

/-- The `CreateEnv` in which exactly the given failure mode occurs on the
standard (non-chunked) `createPatch` path: validation rejects missing inputs,
the probe reports the tool unavailable, or the encoder spawn times out (a
timeout surfaces as a rejected spawn, i.e. `standardEncodeOk = false`). -/
def createEnvOfMode : FailureMode → CreateEnv
  | .missingInput => ⟨false, true, false, [], true⟩
  | .toolUnavailable => ⟨true, false, false, [], true⟩
  | .subprocessTimeout => ⟨true, true, false, [], false⟩

/-- The `ApplyEnv` in which exactly the given failure mode occurs. -/
def applyEnvOfMode : FailureMode → ApplyEnv
  | .missingInput => ⟨false, true, true⟩
  | .toolUnavailable => ⟨true, false, true⟩
  | .subprocessTimeout => ⟨true, true, false⟩

/-- Result value of `createPatch` as seen by the caller: `Except.error` would
mean the call threw; `Except.ok b` means it returned a result object with
`success: b`.  The catch block at lines 284-304 returns
`{success: false, error, duration}`, so every branch is `Except.ok`. -/
def createPatchExc (env : CreateEnv) : Except Unit Bool :=
  .ok (createPatchSuccessJS env)

/-- Result value of `applyPatch` as seen by the caller; its catch block
(lines 720-740) also returns `{success: false}` instead of re-throwing. -/
def applyPatchExc (env : ApplyEnv) : Except Unit Bool :=
  .ok (applyPatchSuccessJS env)

/-- Branch conditions of one `verifyPatch` call (lines 884-1000). -/
structure VerifyEnv where
  validationOk : Bool
  toolAvailable : Bool
  applyOk : Bool
  filesMatch : Bool
deriving Repr, DecidableEq

/-- The `VerifyEnv` in which exactly the given failure mode occurs: missing
inputs fail validation, an unavailable tool fails the probe, and an encoder
timeout surfaces as a failed inner `applyPatch`. -/
def verifyEnvOfMode : FailureMode → VerifyEnv
  | .missingInput => ⟨false, true, true, true⟩
  | .toolUnavailable => ⟨true, false, true, true⟩
  | .subprocessTimeout => ⟨true, true, false, true⟩

/-- Result value of `verifyPatch` as seen by the caller.  Unlike `createPatch`
and `applyPatch`, its catch block (lines 988-999) re-emits the error and then
executes `throw error`: every expected failure (validation failure,
unavailable tool, failed apply) escapes as an exception, modelled as
`Except.error`.  Only the fully successful path returns a result, carrying
`isValid`. -/
def verifyPatchExc (env : VerifyEnv) : Except Unit Bool :=
  if !env.validationOk then .error ()
  else if !env.toolAvailable then .error ()
  else if !env.applyOk then .error ()
  else .ok env.filesMatch

/-! ## Batch patch creation (`createBatchPatches`, AdvancedPatchGenerator.js lines 751-814) -/

/-- The facts about one old/new file pair that decide its batch outcome:
whether the counterpart old file exists, whether `fs.stat` reports equal
sizes, whether `compareFilesStream` finds the contents equal, and whether the
inner `createPatch` call reports success. -/
structure PairInput where
  oldExists : Bool
  sizesEqual : Bool
  contentEqual : Bool
  createReportsSuccess : Bool
deriving Repr, DecidableEq

/-- Status field of one batch outcome record. -/
inductive BatchStatus where
  | success
  | error
  | skipped
deriving Repr, DecidableEq

/-- The outcome record one pair receives inside `createBatchPatches`
(lines 769-796): a missing old file is recorded as `skipped`; with
`options.skipUnchanged` set, equal sizes plus equal streamed contents are
recorded as `skipped` (reason `Sem alterações`); otherwise `createPatch` is
awaited and the pair is recorded as `success` — note the returned result
object's `success` flag is not inspected, and since `createPatch` never
throws, the `catch` that would record `error` is unreachable for expected
failures. -/
def processPair (skipUnchanged : Bool) (p : PairInput) : BatchStatus :=
  if p.oldExists then
    if skipUnchanged && p.sizesEqual && p.contentEqual then .skipped
    else .success
  else .skipped

/-- The eventual record set of one `createBatchPatches` call: every pair's
task, once it runs to completion, pushes exactly one record, so if every task
completes these are the pushed records (kept here in input order; the real
push order is completion order, and every property stated about them is
order-insensitive).  Which of these records are present in the array at the
moment the call returns is a scheduling question modelled separately by
`createBatchPatchesSched`. -/
def createBatchPatchesJS (skipUnchanged : Bool) (pairs : List PairInput) : List BatchStatus :=
  pairs.map (processPair skipUnchanged)

/-- Number of pair tasks `createBatchPatches` starts synchronously, i.e. the
tasks in `allPromises` when `Promise.all(allPromises)` is created (line 804)
and therefore the only tasks the call awaits.  The `for` loop calls `runNext`
`maxParallel` times; the first call cascades (through the
`running.length < maxParallel` check, which gates only the recursive call)
until `maxParallel` tasks are running, and each remaining loop iteration
starts one more task unconditionally, so `min(n, 2*maxParallel - 1)` tasks
start before the snapshot.  `maxParallel` is the already-clamped
`Math.max(1, Math.min(4, options.maxParallel || 4))`. -/
def syncWaveSize (maxParallel n : Nat) : Nat :=
  min n (2 * maxParallel - 1)

/-- The outcome array of one `createBatchPatches` call at the moment it
returns, under a given schedule.  `await Promise.all(allPromises)` iterates
the array as it is when the `await` is evaluated, so only the synchronously
started wave is awaited; tasks started later from `finally` callbacks are
pushed to `allPromises` after the snapshot and are not awaited.  The records
present at return are therefore those of every wave pair (their tasks resolve
before `Promise.all` does, each pushing exactly one record) plus those of the
late pairs whose tasks happen to finish before the awaited wave does —
`lateDone i` says whether pair `i`'s task recorded its outcome in time.
Records are kept in input order; the real push order is completion order, and
the properties stated about them are order-insensitive. -/
def createBatchPatchesSched (skipUnchanged : Bool) (maxParallel : Nat)
    (lateDone : Nat → Bool) (pairs : List PairInput) : List BatchStatus :=
  (pairs.enum.filter
    (fun ip => decide (ip.1 < syncWaveSize maxParallel pairs.length) || lateDone ip.1)).map
    (fun ip => processPair skipUnchanged ip.2)

/-- An eight-pair batch (all old files present, contents differing) used to
exhibit the unawaited late tasks under the default `maxParallel = 4`. -/
def pairsEight : List PairInput :=
  List.replicate 8 ⟨true, false, false, true⟩

/-- `createBatchPatches` as seen by the caller: if reading the new directory
(or creating the patches directory) fails, the outer catch (lines 811-813)
wraps the error and re-throws it; otherwise the outcome list is returned. -/
def createBatchPatchesExc (dirOk : Bool) (skipUnchanged : Bool) (pairs : List PairInput) :
    Except Unit (List BatchStatus) :=
  if dirOk then .ok (createBatchPatchesJS skipUnchanged pairs) else .error ()

/-! ## Tool-probe caching (`checkXdelta`, AdvancedPatchGenerator.js lines 115-166) -/

/-- The two instance fields the probe cache uses:
`_xdeltaChecked` and `_xdeltaAvailable`, both `false` on a fresh instance. -/
structure XdeltaCache where
  checked : Bool
  available : Bool
deriving Repr, DecidableEq

/-- How the probe subprocess ends when it is actually spawned: the `-h`
invocation is classified a success, or it fails / throws. -/
inductive ProbeOutcome where
  | succeeds
  | fails
deriving Repr, DecidableEq

/-- What one `checkXdelta` call produces: the value the caller sees
(`Except.error` models the thrown `XDELTA_NOT_FOUND`), the instance fields
afterwards, and whether the probe subprocess was spawned. -/
structure CheckCallResult where
  value : Except Unit Bool
  cache : XdeltaCache
  ranProbe : Bool
deriving Repr

/-- One `checkXdelta` call: if `_xdeltaChecked && _xdeltaAvailable` it
returns `true` immediately (lines 116-118) without spawning anything;
otherwise it spawns the `-h` probe, sets `_xdeltaChecked = true` and
`_xdeltaAvailable` to the probe's outcome, and either returns `true` or
throws `XDELTA_NOT_FOUND` (both the unsuccessful-result branch at lines
138-145 and the catch branch at lines 148-165 end in a throw with
`_xdeltaAvailable = false`).  The TypeScript `checkXdelta`
(AdvancedPatchGenerator.ts lines 203-288) has the same cache skeleton. -/
def checkXdelta (s : XdeltaCache) (probe : ProbeOutcome) : CheckCallResult :=
  if s.checked && s.available then ⟨.ok true, s, false⟩
  else
    match probe with
    | .succeeds => ⟨.ok true, ⟨true, true⟩, true⟩
    | .fails => ⟨.error (), ⟨true, false⟩, true⟩

/-- A sequence of `checkXdelta` calls on one generator instance, threading
the instance fields; the i-th probe outcome is used only if the i-th call
actually probes. -/
def runChecks (s : XdeltaCache) : List ProbeOutcome → List CheckCallResult
  | [] => []
  | p :: ps =>
    let r := checkXdelta s p
    r :: runChecks r.cache ps

/-! ## Theorems -/

/-- Claim C9: a `spawnCommand` invocation is classified as success exactly
when its exit code is 0, except that a help invocation (arguments containing
`-h` or `--help`) is also classified as success when it exits with code 1. -/
theorem spawn_exit_classification (args : List String) (code : Option Int) :
    isSpawnSuccess args code = true ↔
      code = some 0 ∨ (("-h" ∈ args ∨ "--help" ∈ args) ∧ code = some 1) := by
  simp [isSpawnSuccess, isHelpCommand, List.elem_iff]

/-- Claim C1 (refuting the container round-trip): the chunked create path
emits byte-for-byte identical combined patches for two different new files —
the empty old file with new content `ANEW_CHUNK_1\nB` at chunk size 14, and
the empty old file with new content `AB` at chunk size 1 — for every possible
external encoder.  Since `applyPatch` computes the restored file from the old
file and the combined patch alone, no decode procedure can reconstruct both
new files, so the round-trip property fails. -/
theorem container_marker_collision (enc : List Nat → List Nat → List Nat) :
    createContainer enc [] newFileA 14 = createContainer enc [] newFileB 1 ∧
      newFileA ≠ newFileB :=
  ⟨rfl, by decide⟩

/-- Claim C3 (refuting all-or-nothing propagation): when a chunk encoder
times out, the subprocess is killed (SIGKILL) and `createPatchWithChunks`
returns `{success: false}` leaving no patch at the destination — but the
top-level `createPatch` never inspects that flag and still returns
`success: true` for the large-file branch, so the whole create-patch
operation does not fail. -/
theorem chunk_timeout_swallowed_by_createPatch :
    (spawnCommandResult [] .timesOut).killedByTimeout = true ∧
    (spawnCommandResult [] .timesOut).success = false ∧
    (createPatchWithChunksFS [.ok, .timedOut] ⟨false, false⟩).success = false ∧
    (createPatchWithChunksFS [.ok, .timedOut] ⟨false, false⟩).fs.destinationExists = false ∧
    createPatchSuccessJS ⟨true, true, true, [.ok, .timedOut], true⟩ = true := by
  decide

/-- Claim C4 counterexample: on the fully successful standard create path the
emitted percentage sequence is not non-decreasing (the embedded tool probe
re-emits percentage 0 after the operation has already reported 20), and on
the validation-failure path the final emitted percentage is 100 even though
the operation failed — refuting both halves of the monotonicity claim. -/
theorem progress_claim_counterexample :
    nonDecreasing ((createPatchProgressJS ⟨true, true, false, [], true⟩).map
      (fun e => e.percentage)) = false ∧
    ((createPatchProgressJS ⟨false, true, false, [], true⟩).map
      (fun e => e.percentage)).getLast? = some 100 ∧
    createPatchSuccessJS ⟨false, true, false, [], true⟩ = false := by
  decide

/-- Claim C4 as amended: every terminal emission of `createPatch` and
`applyPatch` reports percentage 100, on failure paths as well as on success
(the failure catch blocks emit 100 with `success: false`), so reaching 100 is
not equivalent to success; and the sequence is not monotone in general. -/
theorem progress_final_always_100 (cEnv : CreateEnv) (aEnv : ApplyEnv) :
    ((createPatchProgressJS cEnv).map (fun e => e.percentage)).getLast? = some 100 ∧
    ((applyPatchProgressJS aEnv).map (fun e => e.percentage)).getLast? = some 100 := by
  obtain ⟨v, t, l, j, s⟩ := cEnv
  obtain ⟨v2, t2, d2⟩ := aEnv
  cases v <;> cases t <;> cases l <;> cases s <;> cases v2 <;> cases t2 <;> cases d2 <;>
    exact ⟨rfl, rfl⟩

/-- Claim C5 counterexample: when a chunk job fails, `createPatchWithChunks`
returns from its catch block without removing the `temp_chunks` scratch
directory, so temporary chunk files survive the operation on the failure
path. -/
theorem temp_dir_left_on_failure :
    (createPatchWithChunksFS [.timedOut] ⟨false, false⟩).fs.tempDirExists = true ∧
    (createPatchWithChunksFS [.timedOut] ⟨false, false⟩).success = false := by
  decide

/-- Claim C5 as amended: the scratch directory is removed before return
exactly on the success path; on any failing run it is left on disk. -/
theorem temp_dir_removed_only_on_success (jobs : List ChunkJobOutcome) (init : ChunkedCreateFS) :
    (createPatchWithChunksFS jobs init).fs.tempDirExists = !(jobs.all (· == .ok)) ∧
    (createPatchWithChunksFS jobs init).success = jobs.all (· == .ok) := by
  unfold createPatchWithChunksFS
  cases h : jobs.all (· == .ok) <;> simp [h]

/-- Claim C6 counterexample: under the default `maxParallel = 4` the batch
awaits only the seven synchronously started tasks, so with eight pairs and a
schedule in which no late task finishes before the awaited wave does, the
returned array holds seven records for eight pairs — not one record per
pair; and with `skipUnchanged` set, a pair whose old file exists but whose
contents are unchanged is recorded as `skipped`, so skipping is not
equivalent to the old file being absent. -/
theorem batch_claim_counterexample :
    pairsEight.length = 8 ∧
    (createBatchPatchesSched true 4 (fun _ => false) pairsEight).length = 7 ∧
    createBatchPatchesSched true 4 (fun _ => false) [⟨true, true, true, false⟩] = [.skipped] ∧
    (⟨true, true, true, false⟩ : PairInput).oldExists = true := by
  decide

/-- Claim C6 as amended: every record the batch returns is the independently
computed outcome of one of its pairs with status in {success, error,
skipped}, so no pair's failure cancels or aborts the processing of another —
but at most one record per pair is guaranteed, not exactly one: only when the
whole batch fits in the synchronously started wave (at most
`2*maxParallel - 1` pairs) does every pair contribute a record regardless of
schedule.  A pair is skipped when its counterpart old file is absent or when
`skipUnchanged` is set and the pair's files have equal sizes and equal
streamed contents. -/
theorem batch_outcomes_amended (sk : Bool) (mp : Nat) (lateDone : Nat → Bool)
    (pairs : List PairInput) :
    (createBatchPatchesSched sk mp lateDone pairs).length ≤ pairs.length ∧
    (pairs.length ≤ syncWaveSize mp pairs.length →
      (createBatchPatchesSched sk mp lateDone pairs).length = pairs.length) ∧
    (∀ s ∈ createBatchPatchesSched sk mp lateDone pairs, ∃ p ∈ pairs, s = processPair sk p) ∧
    (∀ p : PairInput, processPair sk p = .skipped ↔
      p.oldExists = false ∨ (sk = true ∧ p.sizesEqual = true ∧ p.contentEqual = true)) := by
  refine ⟨?_, ?_, ?_, ?_⟩
  · simp only [createBatchPatchesSched, List.length_map]
    calc (pairs.enum.filter _).length ≤ pairs.enum.length := List.length_filter_le _ _
      _ = pairs.length := List.enum_length
  · intro hN
    have hall : pairs.enum.filter
        (fun ip => decide (ip.1 < syncWaveSize mp pairs.length) || lateDone ip.1) =
        pairs.enum := by
      refine List.filter_eq_self.mpr ?_
      intro ip hip
      have h1 : ip.1 ∈ pairs.enum.map Prod.fst := List.mem_map_of_mem _ hip
      rw [List.enum_map_fst] at h1
      have h2 : ip.1 < pairs.length := List.mem_range.mp h1
      simp [Nat.lt_of_lt_of_le h2 hN]
    simp [createBatchPatchesSched, hall, List.enum_length]
  · intro s hs
    simp only [createBatchPatchesSched, List.mem_map] at hs
    obtain ⟨ip, hip, hs⟩ := hs
    have h1 : ip ∈ pairs.enum := List.mem_of_mem_filter hip
    have h2 : ip.2 ∈ pairs.enum.map Prod.snd := List.mem_map_of_mem _ h1
    rw [List.enum_map_snd] at h2
    exact ⟨ip.2, h2, hs.symm⟩
  · intro p
    obtain ⟨o, se, ce, cs⟩ := p
    cases sk <;> cases o <;> cases se <;> cases ce <;> cases cs <;> decide

/-- Claim C8 counterexample: `verifyPatch` does not return a typed failure
result for a missing input file — its catch block re-throws, so the error
escapes as an exception. -/
theorem verifyPatch_throws_on_missing_input :
    verifyPatchExc ⟨false, true, true, true⟩ = .error () := rfl

/-- Claim C8 as amended: for every expected failure mode, `createPatch` and
`applyPatch` return typed failure results (they never throw), but
`verifyPatch` re-throws the failure as an exception, and `createBatchPatches`
throws when the input directory cannot be read. -/
theorem expected_failures_behavior (m : FailureMode) :
    createPatchExc (createEnvOfMode m) = .ok false ∧
    applyPatchExc (applyEnvOfMode m) = .ok false ∧
    verifyPatchExc (verifyEnvOfMode m) = .error () ∧
    createBatchPatchesExc false true [] = .error () := by
  cases m <;> exact ⟨rfl, rfl, rfl, rfl⟩

/-- With a non-positive chunk size, every iteration of the planner loop keeps
`start` strictly below the file size (the next start is
`min(start + chunkSize, fileSize) - overlap ≤ start`), so the loop body runs
out of any amount of fuel. -/
lemma createChunksAux_none_of_nonpos (S C : Int) (hC : C ≤ 0) :
    ∀ (fuel : Nat) (start : Int) (idx : Nat), start < S →
      createChunksAux S C 0 fuel start idx = none := by
  intro fuel
  induction fuel with
  | zero => intro start idx _; rfl
  | succ n ih =>
    intro start idx h
    have hmin : min (start + C) S ≤ start + C := min_le_left _ _
    have he : min (start + C) S - 0 < S := by omega
    simp only [createChunksAux, if_pos h, ih _ _ he]

/-- Claim C7 counterexample: on file size 1 with chunk size 0 the planner
loop never terminates — it neither fails with a configuration error nor
returns. -/
theorem chunk_planner_diverges_on_zero_chunk_size : createChunksLoopsForever := by
  intro fuel
  exact createChunksAux_none_of_nonpos 1 0 (by norm_num) fuel 0 0 (by norm_num)

/-- Claim C7 as amended: the planner performs no chunk-size validation at
all.  With chunk size ≤ 0 it returns the empty descriptor list when the file
size is 0, and for every positive file size its loop never terminates; no
`InvalidConfiguration` failure exists on any path. -/
theorem chunk_planner_no_validation (S C : Int) (hC : C ≤ 0) :
    (0 < S → ∀ fuel, createChunks S C 0 fuel = none) ∧
    (S = 0 → ∀ fuel, 0 < fuel → createChunks S C 0 fuel = some []) := by
  constructor
  · intro hS fuel
    exact createChunksAux_none_of_nonpos S C hC fuel 0 0 hS
  · rintro rfl fuel hf
    match fuel, hf with
    | f + 1, _ => simp [createChunks, createChunksAux]

/-- Witness for the amended C7 theorem at chunk size 0 and file size 1. -/
theorem chunk_planner_no_validation_witness :
    (0 : Int) ≤ 0 ∧
      ((0 < (1 : Int) → ∀ fuel, createChunks 1 0 0 fuel = none) ∧
        ((1 : Int) = 0 → ∀ fuel, 0 < fuel → createChunks 1 0 0 fuel = some [])) :=
  ⟨by norm_num, chunk_planner_no_validation 1 0 (by norm_num)⟩

/-- A `checkXdelta` call that returns `true` always leaves the cache in the
checked-and-available state — either it was already there (cached branch) or
the probe just succeeded. -/
lemma checkXdelta_ok_cache (s : XdeltaCache) (p : ProbeOutcome) :
    (checkXdelta s p).value = .ok true → (checkXdelta s p).cache = ⟨true, true⟩ := by
  obtain ⟨c, a⟩ := s
  cases c <;> cases a <;> cases p <;> simp [checkXdelta]

/-- From the checked-and-available cache state, every later call in a
sequence returns `true` without spawning the probe. -/
lemma runChecks_cached (ps : List ProbeOutcome) :
    ∀ r ∈ runChecks ⟨true, true⟩ ps, r.value = .ok true ∧ r.ranProbe = false := by
  induction ps with
  | nil => intro r hr; simp [runChecks] at hr
  | cons p ps ih =>
    intro r hr
    simp only [runChecks, List.mem_cons] at hr
    rcases hr with h | h
    · subst h; exact ⟨rfl, rfl⟩
    · exact ih r h

/-- Claim C10: once a `checkXdelta` call has returned `true`, every
subsequent call on the same instance returns `true` without re-running the
probe subprocess; and a call whose probe ran and failed leaves
`_xdeltaAvailable = false`, so the next call spawns the probe again — a
failed probe is never cached as a negative result. -/
theorem checkXdelta_probe_caching (s : XdeltaCache) (p : ProbeOutcome) (ps : List ProbeOutcome) :
    ((checkXdelta s p).value = .ok true →
      ∀ r ∈ runChecks (checkXdelta s p).cache ps, r.value = .ok true ∧ r.ranProbe = false) ∧
    ((checkXdelta s p).ranProbe = true → p = .fails →
      (checkXdelta s p).cache.available = false ∧
        ∀ q, (checkXdelta (checkXdelta s p).cache q).ranProbe = true) := by
  constructor
  · intro hv
    rw [checkXdelta_ok_cache s p hv]
    exact runChecks_cached ps
  · intro hp hf
    subst hf
    obtain ⟨c, a⟩ := s
    cases c <;> cases a <;> simp [checkXdelta] at hp ⊢
    all_goals (intro q; cases q <;> rfl)

/-- Correctness of the planner loop from an arbitrary loop state: with a
positive chunk size and zero overlap, the loop starting at `start ≤ fileSize`
terminates (any fuel beyond the remaining distance suffices, always
producing the same list) and its output tiles `[start, fileSize)` exactly;
it is empty when the loop starts at the end. -/
lemma createChunksAux_spec (S C : Int) (hC : 0 < C) :
    ∀ (n : Nat) (start : Int) (idx : Nat), start ≤ S → (S - start).toNat = n →
      ∃ l, (∀ fuel, n < fuel → createChunksAux S C 0 fuel start idx = some l) ∧
        coversFrom S start l = true ∧ (start = S → l = []) := by
  intro n
  induction n using Nat.strong_induction_on with
  | _ n ih =>
    intro start idx hle hn
    by_cases hlt : start < S
    · have hmin1 : min (start + C) S ≤ start + C := min_le_left _ _
      have hmin2 : min (start + C) S ≤ S := min_le_right _ _
      have he1 : start < min (start + C) S := lt_min (by omega) hlt
      have hm : (S - min (start + C) S).toNat < n := by omega
      obtain ⟨l', hl1, hl2, _⟩ := ih _ hm (min (start + C) S) (idx + 1) hmin2 rfl
      refine ⟨⟨start, min (start + C) S, min (start + C) S - start, idx⟩ :: l', ?_, ?_, ?_⟩
      · intro fuel hf
        match fuel, hf with
        | f + 1, hf =>
          have hrec : createChunksAux S C 0 f (min (start + C) S - 0) (idx + 1) = some l' := by
            rw [sub_zero]
            exact hl1 f (by omega)
          simp only [createChunksAux, if_pos hlt, hrec]
      · simp [coversFrom, he1, hl2]
      · intro h; omega
    · have hse : start = S := by omega
      subst hse
      refine ⟨[], ?_, by simp [coversFrom], fun _ => rfl⟩
      intro fuel hf
      match fuel, hf with
      | f + 1, _ => simp [createChunksAux]

/-- Claim C2: for every file size S ≥ 0 and chunk size C > 0, the chunk
planner terminates (any fuel beyond S suffices and the result does not depend
on the fuel) with a descriptor list whose `[start, endByte)` ranges are
contiguous, non-overlapping and tile `[0, S)` exactly, the last range ending
at S; for S = 0 the list is empty. -/
theorem chunk_coverage (S C : Int) (hC : 0 < C) (hS : 0 ≤ S) :
    ∃ l, (∀ fuel, S.toNat < fuel → createChunks S C 0 fuel = some l) ∧
      coversFrom S 0 l = true ∧ (S = 0 → l = []) := by
  obtain ⟨l, h1, h2, h3⟩ := createChunksAux_spec S C hC S.toNat 0 0 hS (by omega)
  exact ⟨l, fun fuel hf => h1 fuel hf, h2, fun h => h3 h.symm⟩

/-- Witness for the C2 theorem at file size 7 and chunk size 3. -/
theorem chunk_coverage_witness :
    (0 : Int) < 3 ∧ (0 : Int) ≤ 7 ∧
      ∃ l, (∀ fuel, (7 : Int).toNat < fuel → createChunks 7 3 0 fuel = some l) ∧
        coversFrom 7 0 l = true ∧ ((7 : Int) = 0 → l = []) :=
  ⟨by norm_num, by norm_num, chunk_coverage 7 3 (by norm_num) (by norm_num)⟩
